import Mathlib

/-!
Verification development for the PCAP-BreakoutBoard firmware
(multi-chip capacitance acquisition and framing pipeline).

The definitions below are a shallow embedding of the C/C++ sources under
PCAP_Firmware/src and PCAP_Firmware/include:

- mux_control.c / mux_control.cpp  (multiplexer channel selection)
- pcap_driver.c / pcap_driver.cpp / pcap_spi.cpp (chip protocol layer)
- ble_manager.c / ble_manager.cpp  (telemetry framing and transport push)
- nn_inference.cpp                 (hysteresis compensation fallback)

Machine integers are modelled as Nat / Int with explicit two's-complement
reduction (% 2^32) where overflow matters.  Hardware and RTOS interaction
(SPI response bytes, semaphore acquisition, model invocation) is passed in
explicitly as environment values, so every definition is executable.
-/

namespace PCAP

/-! ## Constants from include/pcap04_defs.h -/

def PCAP_WR_MEM : Nat := 0xA0

def PCAP_RD_MEM : Nat := 0x20

def PCAP_WR_CONFIG : Nat := 0xA3C0

def PCAP_RD_CONFIG : Nat := 0x23C0

def PCAP_RD_RESULT : Nat := 0x40

def PCAP_POR : Nat := 0x88

def PCAP_INIT : Nat := 0x8A

def PCAP_CDC_START : Nat := 0x8C

def PCAP_RDC_START : Nat := 0x8E

def PCAP_DSP_TRIG : Nat := 0x8D

def PCAP_NV_STORE : Nat := 0x96

def PCAP_NV_RECALL : Nat := 0x99

def PCAP_NV_ERASE : Nat := 0x9C

def PCAP_TEST_READ : Nat := 0x7E

def NUM_PCAP_CHIPS : Nat := 8

def NUM_SENSORS_PER_CHIP : Nat := 6

/-- Enum value PCAP_CHIP_NONE = 15 from mux_control.h: no chip selected. -/
def PCAP_CHIP_NONE : Nat := 15

/-- Enum value PCAP_CHIP_1 = 0 from mux_control.h (chips occupy values 0..7). -/
def PCAP_CHIP_1 : Nat := 0

/-! ## Mux Channel Selector, ESP-IDF variant (mux_control.c)

State: the four CD74HC4067 select-line levels S0..S3 plus the
module-static variable current_chip. -/

structure MuxState where
  s0 : Bool
  s1 : Bool
  s2 : Bool
  s3 : Bool
  current_chip : Nat
deriving Repr, DecidableEq

/-- mux_select_chip (mux_control.c, lines 28-40): drives each select pin
from one bit of the chip value and records it in current_chip. -/
def mux_select_chip (s : MuxState) (chip : Nat) : MuxState :=
  { s0 := (chip &&& 0x01) != 0
    s1 := (chip &&& 0x02) != 0
    s2 := (chip &&& 0x04) != 0
    s3 := (chip &&& 0x08) != 0
    current_chip := chip }

/-- mux_get_current_chip (mux_control.c, lines 42-45). -/
def mux_get_current_chip (s : MuxState) : Nat := s.current_chip

/-- mux_init (mux_control.c): configures the pins and deselects all chips;
current_chip is statically initialised to PCAP_CHIP_NONE. -/
def mux_init_state : MuxState :=
  mux_select_chip ⟨false, false, false, false, PCAP_CHIP_NONE⟩ PCAP_CHIP_NONE

/-- The CD74HC4067 mux decodes its four select lines as a binary channel
number; this is the channel the hardware presents on the shared bus. -/
def muxChannelValue (s : MuxState) : Nat :=
  (cond s.s0 1 0) + 2 * (cond s.s1 1 0) + 4 * (cond s.s2 1 0) + 8 * (cond s.s3 1 0)

/-- A chip (channels 0..7 per the pcap_chip_select_t enum) is electrically
active exactly when the select lines decode to its channel number. -/
def chipActive (s : MuxState) (c : Nat) : Prop :=
  c ≤ 7 ∧ muxChannelValue s = c

instance (s : MuxState) (c : Nat) : Decidable (chipActive s c) := by
  unfold chipActive; infer_instance

/-! ## Mux Channel Selector, Arduino variant (mux_control.cpp) -/

structure MuxCppState where
  s0 : Bool
  s1 : Bool
  s2 : Bool
  s3 : Bool
  current_chip : Nat
deriving Repr, DecidableEq

namespace MuxControl

/-- MuxControl::selectChip (mux_control.cpp, lines 13-26): returns early on
PCAP_CHIP_NONE, otherwise drives the select pins; note that the member
current_chip is never assigned. -/
def selectChip (s : MuxCppState) (chip : Nat) : MuxCppState :=
  if chip == PCAP_CHIP_NONE then s
  else
    { s with
      s0 := (chip &&& 0x01) != 0
      s1 := (chip &&& 0x02) != 0
      s2 := (chip &&& 0x04) != 0
      s3 := (chip &&& 0x08) != 0 }

/-- MuxControl::getCurrentChip (mux_control.cpp, lines 28-30). -/
def getCurrentChip (s : MuxCppState) : Nat := s.current_chip

/-- State after MuxControl::begin(): pins configured (levels initially low)
and selectChip(PCAP_CHIP_NONE) called; current_chip has its member
initialiser PCAP_CHIP_NONE. -/
def beginState : MuxCppState :=
  selectChip ⟨false, false, false, false, PCAP_CHIP_NONE⟩ PCAP_CHIP_NONE

end MuxControl

/-- Channel decoded from the Arduino-variant select lines. -/
def muxCppChannelValue (s : MuxCppState) : Nat :=
  (cond s.s0 1 0) + 2 * (cond s.s1 1 0) + 4 * (cond s.s2 1 0) + 8 * (cond s.s3 1 0)

/-- Active-chip predicate for the Arduino-variant mux state. -/
def cppChipActive (s : MuxCppState) (c : Nat) : Prop :=
  c ≤ 7 ∧ muxCppChannelValue s = c

instance (s : MuxCppState) (c : Nat) : Decidable (cppChipActive s c) := by
  unfold cppChipActive; infer_instance

/-- Calls a client can make on the mux selector: select a channel, or
deselect (which both implementations express as selecting PCAP_CHIP_NONE). -/
inductive MuxOp where
  | select (chip : Nat)
  | deselect
deriving Repr, DecidableEq

def muxApplyOp (s : MuxState) : MuxOp → MuxState
  | .select c => mux_select_chip s c
  | .deselect => mux_select_chip s PCAP_CHIP_NONE

def muxRunOps (s : MuxState) (ops : List MuxOp) : MuxState :=
  ops.foldl muxApplyOp s

def muxCppApplyOp (s : MuxCppState) : MuxOp → MuxCppState
  | .select c => MuxControl.selectChip s c
  | .deselect => MuxControl.selectChip s PCAP_CHIP_NONE

def muxCppRunOps (s : MuxCppState) (ops : List MuxOp) : MuxCppState :=
  ops.foldl muxCppApplyOp s

/-! ## Self-test (pcap_driver.c pcap_test_communication, lines 201-224;
pcap_driver.cpp PCAP_Driver::testCommunication, lines 171-200)

Both variants select the chip, clock out PCAP_TEST_READ, clock out a 0x00
filler byte while capturing the response byte, and compare it to 0x11.
The SPI response byte is an environment input. -/

structure SelfTestEnv where
  /-- Byte clocked in from the chip during the 0x00 filler transfer that
  follows the PCAP_TEST_READ command. -/
  response : Nat
deriving Repr, DecidableEq

/-- pcap_test_communication: first component is the byte sequence driven on
the bus, second is the returned test_passed boolean. -/
def pcap_test_communication (env : SelfTestEnv) : List Nat × Bool :=
  ([PCAP_TEST_READ, 0x00], env.response == 0x11)

/-- Modelled from the spec (section 4.3 selfTest): the five-way
classification of the self-test response byte that the spec describes.
Used only to compare the spec against the code, which is not structured
this way. -/
inductive SelfTestResult where
  | pass
  | byteSwapFault
  | invertedBitsFault
  | bothFaults
  | unknownFault (raw : Nat)
deriving Repr, DecidableEq

/-- Modelled from the spec: selfTest classification table
(0x11 pass, 0x88 byte swap, 0xEE inverted bits, 0x77 both, else unknown). -/
def selfTestClassifySpec (b : Nat) : SelfTestResult :=
  if b = 0x11 then .pass
  else if b = 0x88 then .byteSwapFault
  else if b = 0xEE then .invertedBitsFault
  else if b = 0x77 then .bothFaults
  else .unknownFault b

/-! ## Result read (pcap_driver.c pcap_read_sensor, lines 185-199;
pcap_driver.cpp PCAP_Driver::readSensor, lines 145-165;
pcap_spi.cpp PCAP_SPI::readResult, lines 139-156) -/

/-- Per-sensor address table sensor_addr / sensAdd = {0x00, 0x04, 0x08,
0x0C, 0x10, 0x14} (pcap_driver.c line 14, pcap_driver.cpp line 8). -/
def sensor_addr : Fin 6 → Nat
  | 0 => 0x00
  | 1 => 0x04
  | 2 => 0x08
  | 3 => 0x0C
  | 4 => 0x10
  | 5 => 0x14

/-- Command byte sent by pcap_read_sensor: PCAP_RD_RESULT | sensor_addr[n]. -/
def pcap_read_sensor_cmd (sensor_num : Fin 6) : Nat :=
  PCAP_RD_RESULT ||| sensor_addr sensor_num

/-- Recomposition of the four response bytes performed by pcap_read_sensor
(pcap_driver.c line 197), PCAP_Driver::readSensor (pcap_driver.cpp line
163) and PCAP_SPI::readResult (pcap_spi.cpp line 153): buffer[0] is the
first byte clocked out of the chip. -/
def pcap_read_sensor_value (buffer : Fin 4 → Nat) : Nat :=
  ((buffer 3) <<< 24) ||| ((buffer 2) <<< 16) ||| ((buffer 1) <<< 8) ||| (buffer 0)

/-- Modelled from the spec (section 4.3 readResult, claim wording): the
recomposition in which the first response byte received becomes the most
significant byte of the value.  Used only to compare against the code. -/
def specBigEndianValue (buffer : Fin 4 → Nat) : Nat :=
  (buffer 0) * 2 ^ 24 + (buffer 1) * 2 ^ 16 + (buffer 2) * 2 ^ 8 + (buffer 3)

/-! ## Per-chip measurement data (include/pcap04_defs.h pcap_data_t)

The C struct holds uint32_t raw[6] and float offset[6] (the float field
final is unused by the claims and omitted).  The float offsets only ever
store values obtained from uint32 raw samples; IEEE-754 single precision
represents every integer below 2^24 exactly, and the chip reports 24
significant bits, so the offset store is modelled as an exact integer. -/

structure pcap_data where
  raw : Fin 6 → Nat
  offset : Fin 6 → Int

/-- Bus environment for one 6-sensor read pass: the four response bytes the
selected chip returns for each sensor's result-read command. -/
structure BusEnv where
  resp : Fin 6 → Fin 4 → Nat

/-- Command bytes issued on the bus by one pcap_read_data pass
(pcap_driver.c lines 171-183): one result-read command per sensor. -/
def pcap_read_data_cmds : List Nat :=
  (List.finRange 6).map pcap_read_sensor_cmd

/-- pcap_read_data (pcap_driver.c, lines 171-183): reads all six sensors of
the selected chip into data->raw. -/
def pcap_read_data (env : BusEnv) (d : pcap_data) : pcap_data :=
  { d with raw := fun i => pcap_read_sensor_value (env.resp i) }

/-- pcap_calibrate (pcap_driver.c, lines 226-245).  The NULL data pointer is
modelled as none.  Besides the updated data it returns the list of command
bytes issued on the bus (empty on the NULL path, one full 6-channel read
otherwise).  The store data->offset[i] = data->raw[i] into the float field
is exact for the chip's 24-bit samples (see pcap_data). -/
def pcap_calibrate (env : BusEnv) (d : Option pcap_data) :
    Option pcap_data × List Nat :=
  match d with
  | none => (none, [])
  | some d =>
    let d2 := pcap_read_data env d
    (some { d2 with offset := fun i => (d2.raw i : Int) }, pcap_read_data_cmds)

/-- Calibration application used downstream (ble_manager.c line 299,
nn_inference.cpp line 204): calibrated = raw - offset. -/
def applyCalibration (raw : Nat) (offset : Int) : Int :=
  (raw : Int) - offset

/-! ## Hysteresis compensation (nn_inference.cpp nn_compensate, lines
120-195)

Sensor values are IEEE floats in the C code; the fallback paths the claims
are about copy them verbatim, so the value type is kept abstract.  The
TFLite state and the outcome of one Invoke() call are environment inputs:
invokeResult applied to the input vector is none when Invoke() returns
something other than kTfLiteOk, and some out when inference succeeds with
out the values read back from the output tensor. -/

structure NNEnv (α : Type) where
  /-- The module-static nn_ready flag set by a successful nn_init. -/
  nn_ready : Bool
  /-- Whether interpreter, input_tensor and output_tensor are all non-null. -/
  interpreter_ok : Bool
  /-- Outcome of Invoke() plus the output-tensor read for a given input. -/
  invokeResult : (Fin 6 → α) → Option (Fin 6 → α)

/-- nn_compensate (nn_inference.cpp): pass-through when the model is not
ready, when the interpreter or tensors are missing, or when Invoke fails;
otherwise the output-tensor values. -/
def nn_compensate {α : Type} (env : NNEnv α) (raw_input : Fin 6 → α) :
    Fin 6 → α :=
  if env.nn_ready = false then raw_input
  else if env.interpreter_ok = false then raw_input
  else
    match env.invokeResult raw_input with
    | none => raw_input
    | some out => out

/-! ## Telemetry framing and BLE push (ble_manager.c ble_send_chip_data,
lines 280-315; ble_send_battery, lines 340-364; BLEManager::sendChipData,
ble_manager.cpp lines 84-110)

The int32_t arithmetic of the packing loop is modelled on the
two's-complement bit pattern: for an int32 value c, the C expression
(c >> sh) & 0xFF (arithmetic shift) equals the same shift-and-mask applied
to the nonnegative pattern c mod 2^32. -/

/-- Two's-complement 32-bit pattern of an int32_t value. -/
def int32OfInt (v : Int) : Nat :=
  (v % 4294967296).toNat

/-- The four bytes the packing loop emits for one calibrated value, most
significant byte first (ble_manager.c lines 302-305). -/
def int32BEBytes (v : Int) : List Nat :=
  [ (int32OfInt v >>> 24) &&& 0xFF
  , (int32OfInt v >>> 16) &&& 0xFF
  , (int32OfInt v >>> 8) &&& 0xFF
  , int32OfInt v &&& 0xFF ]

/-- The 25-byte telemetry frame built by ble_send_chip_data: byte 0 is the
chip number, then the six per-sensor groups in order (the loop over
NUM_SENSORS_PER_CHIP unrolled). -/
def packFrame (chip_num : Nat) (vals : Fin 6 → Int) : List Nat :=
  chip_num ::
    (int32BEBytes (vals 0) ++ int32BEBytes (vals 1) ++ int32BEBytes (vals 2) ++
     int32BEBytes (vals 3) ++ int32BEBytes (vals 4) ++ int32BEBytes (vals 5))

/-- Calibrated value packed for sensor i (ble_manager.c line 299):
(int32_t)(data->raw[i] - data->offset[i]). -/
def calibratedValue (d : pcap_data) (i : Fin 6) : Int :=
  (d.raw i : Int) - d.offset i

/-- Connection state shared between the NimBLE host task and the
acquisition task (ble_manager.c statics), plus the stored outgoing frame
buffer sensor_data_val. -/
structure BleState where
  device_connected : Bool
  /-- conn_handle != BLE_HS_CONN_HANDLE_NONE. -/
  conn_handle_valid : Bool
  /-- The 25-byte characteristic buffer sensor_data_val. -/
  sensor_data_val : List Nat
deriving Repr, DecidableEq

/-- Result of xSemaphoreTake(ble_mutex, pdMS_TO_TICKS(bleLockWaitMs)):
either the mutex was acquired within the bounded wait or the call timed
out. -/
inductive LockOutcome where
  | acquired
  | timedOut
deriving Repr, DecidableEq

/-- Millisecond bound passed to xSemaphoreTake in ble_send_chip_data,
ble_send_status and ble_send_battery (ble_manager.c lines 283, 319, 342). -/
def bleLockWaitMs : Nat := 10

/-- ble_send_chip_data (ble_manager.c, lines 280-315): drop the frame if
the mutex cannot be taken within the bounded wait or no client is
connected; otherwise write the frame into sensor_data_val and notify it on
the sensor-data characteristic.  The second component is the notified
payload, none when the frame is dropped. -/
def ble_send_chip_data (lock : LockOutcome) (st : BleState) (chip_num : Nat)
    (d : pcap_data) : BleState × Option (List Nat) :=
  match lock with
  | .timedOut => (st, none)
  | .acquired =>
    if !st.device_connected || !st.conn_handle_valid then (st, none)
    else
      let frame := packFrame chip_num (calibratedValue d)
      ({ st with sensor_data_val := frame }, some frame)

/-- ble_send_battery (ble_manager.c, lines 340-364): 2-byte packet
[0xFF, battery_percentage] notified on the same sensor-data
characteristic. -/
def ble_send_battery (lock : LockOutcome) (st : BleState)
    (battery_percentage : Nat) : BleState × Option (List Nat) :=
  match lock with
  | .timedOut => (st, none)
  | .acquired =>
    if !st.device_connected || !st.conn_handle_valid then (st, none)
    else (st, some [0xFF, battery_percentage])

/-! ## Spec-side frame decoding (section 4.6 round-trip wording)

Modelled from the spec: a receiver decodes byte 0 as the chip id and bytes
1..24 as six big-endian 32-bit signed integers. -/

/-- Modelled from the spec: decode byte 0 of a frame as the chip id. -/
def decodeFrameChip (frame : List Nat) : Option Nat := frame.head?

/-- Big-endian recomposition of four bytes. -/
def beNat4 (b0 b1 b2 b3 : Nat) : Nat :=
  b0 * 2 ^ 24 + b1 * 2 ^ 16 + b2 * 2 ^ 8 + b3

/-- Signed interpretation of a 32-bit pattern. -/
def int32OfBits (u : Nat) : Int :=
  if u < 2147483648 then (u : Int) else (u : Int) - 4294967296

/-- Modelled from the spec: decode bytes 1+4i..4+4i of a frame as the i-th
big-endian 32-bit signed integer. -/
def decodeFrameValue (frame : List Nat) (i : Fin 6) : Option Int :=
  match frame[1 + 4 * i.val]?, frame[2 + 4 * i.val]?,
        frame[3 + 4 * i.val]?, frame[4 + 4 * i.val]? with
  | some b0, some b1, some b2, some b3 => some (int32OfBits (beNat4 b0 b1 b2 b3))
  | _, _, _, _ => none

/-! ## Helper lemmas on machine-integer arithmetic -/

theorem lor_mul_pow_eq_add (k a : Nat) :
    ∀ b, b < 2 ^ k → (a * 2 ^ k) ||| b = a * 2 ^ k + b := by
  induction k with
  | zero =>
    intro b hb
    simp only [pow_zero] at hb ⊢
    interval_cases b
    simp
  | succ k ih =>
    intro b hb
    have hpow : (2 : Nat) ^ (k + 1) = 2 ^ k * 2 := Nat.pow_succ 2 k
    have hb2 : b.div2 < 2 ^ k := by rw [Nat.div2_val]; omega
    have hbval : b = 2 * b.div2 + b.bodd.toNat := by
      conv_lhs => rw [← Nat.bit_decomp b]
      rw [Nat.bit_val]
    have ha : a * 2 ^ (k + 1) = Nat.bit false (a * 2 ^ k) := by
      rw [Nat.bit_val, hpow]
      ring_nf
      simp
    calc (a * 2 ^ (k + 1)) ||| b
        = Nat.bit false (a * 2 ^ k) ||| Nat.bit b.bodd b.div2 := by
          rw [← ha, Nat.bit_decomp]
      _ = Nat.bit (false || b.bodd) ((a * 2 ^ k) ||| b.div2) :=
          Nat.lor_bit false (a * 2 ^ k) b.bodd b.div2
      _ = Nat.bit b.bodd (a * 2 ^ k + b.div2) := by
          rw [Bool.false_or, ih b.div2 hb2]
      _ = a * 2 ^ (k + 1) + b := by
          rw [Nat.bit_val, hpow]
          have hmul : a * (2 ^ k * 2) = 2 * (a * 2 ^ k) := by ring
          omega

theorem lor_eq_add_of_lt (a b m k : Nat) (hm : m = 2 ^ k) (hb : b < m) :
    (a * m) ||| b = a * m + b := by
  subst hm
  exact lor_mul_pow_eq_add k a b hb

theorem and_255_eq_mod (x : Nat) : x &&& 255 = x % 256 := by
  have h255 : (255 : Nat) = 2 ^ 8 - 1 := by norm_num
  have h256 : (256 : Nat) = 2 ^ 8 := by norm_num
  apply Nat.eq_of_testBit_eq
  intro i
  rw [h255, h256, Nat.testBit_land, Nat.testBit_two_pow_sub_one,
    Nat.testBit_mod_two_pow, Bool.and_comm]

theorem int32OfInt_lt (v : Int) : int32OfInt v < 4294967296 := by
  unfold int32OfInt
  omega

theorem beNat4_int32BEBytes (u : Nat) (hu : u < 4294967296) :
    beNat4 ((u >>> 24) &&& 0xFF) ((u >>> 16) &&& 0xFF) ((u >>> 8) &&& 0xFF)
      (u &&& 0xFF) = u := by
  simp only [beNat4, Nat.shiftRight_eq_div_pow, and_255_eq_mod]
  norm_num
  omega

theorem int32OfBits_int32OfInt (v : Int) (h1 : -2147483648 ≤ v)
    (h2 : v < 2147483648) : int32OfBits (int32OfInt v) = v := by
  unfold int32OfBits int32OfInt
  split <;> omega

theorem pcap_read_sensor_value_eq (b : Fin 4 → Nat) (hb : ∀ j, b j < 256) :
    pcap_read_sensor_value b = b 0 + 256 * b 1 + 65536 * b 2 + 16777216 * b 3 := by
  have hb0 := hb 0
  have hb1 := hb 1
  have hb2 := hb 2
  have hb3 := hb 3
  unfold pcap_read_sensor_value
  rw [Nat.shiftLeft_eq, Nat.shiftLeft_eq, Nat.shiftLeft_eq]
  norm_num
  rw [lor_eq_add_of_lt (b 3) (b 2 * 65536) 16777216 24 (by norm_num) (by omega)]
  rw [show b 3 * 16777216 + b 2 * 65536 = (b 3 * 256 + b 2) * 65536 by ring]
  rw [lor_eq_add_of_lt _ (b 1 * 256) 65536 16 (by norm_num) (by omega)]
  rw [show (b 3 * 256 + b 2) * 65536 + b 1 * 256 =
    (b 3 * 65536 + b 2 * 256 + b 1) * 256 by ring]
  rw [lor_eq_add_of_lt _ (b 0) 256 8 (by norm_num) hb0]
  ring

theorem chipActive_iff (s : MuxState) (c : Nat) :
    chipActive s c ↔ c ≤ 7 ∧ muxChannelValue s = c := Iff.rfl

theorem cppChipActive_iff (s : MuxCppState) (c : Nat) :
    cppChipActive s c ↔ c ≤ 7 ∧ muxCppChannelValue s = c := Iff.rfl

/-! ## Claim theorems -/

/-- C1: after every sequence of select/deselect calls, at most one chip is
active on the mux select lines (never two simultaneously, in either
implementation variant), and selecting a then b without an intervening
deselect itself forces the deselect of a: afterwards b is active and a is
not. -/
theorem mux_single_active (ops : List MuxOp) (a b : Nat) (hab : a ≠ b)
    (hb7 : b ≤ 7) :
    (¬ (chipActive (muxRunOps mux_init_state ops) a ∧
        chipActive (muxRunOps mux_init_state ops) b)) ∧
    chipActive (muxRunOps mux_init_state (ops ++ [MuxOp.select a, MuxOp.select b])) b ∧
    (¬ chipActive (muxRunOps mux_init_state (ops ++ [MuxOp.select a, MuxOp.select b])) a) ∧
    (¬ (cppChipActive (muxCppRunOps MuxControl.beginState ops) a ∧
        cppChipActive (muxCppRunOps MuxControl.beginState ops) b)) := by
  have hsplit : muxRunOps mux_init_state (ops ++ [MuxOp.select a, MuxOp.select b]) =
      mux_select_chip (mux_select_chip (muxRunOps mux_init_state ops) a) b := by
    simp [muxRunOps, muxApplyOp]
  have hval : muxChannelValue
      (mux_select_chip (mux_select_chip (muxRunOps mux_init_state ops) a) b) = b := by
    interval_cases b <;> simp [mux_select_chip, muxChannelValue] <;> decide
  refine ⟨?_, ?_, ?_, ?_⟩
  · rw [chipActive_iff, chipActive_iff]
    rintro ⟨⟨-, h1⟩, -, h2⟩
    exact hab (by omega)
  · rw [hsplit, chipActive_iff]
    exact ⟨hb7, hval⟩
  · rw [hsplit, chipActive_iff]
    rintro ⟨-, h⟩
    rw [hval] at h
    exact hab h.symm
  · rw [cppChipActive_iff, cppChipActive_iff]
    rintro ⟨⟨-, h1⟩, -, h2⟩
    exact hab (by omega)

/-- Witness for C1 at ops = [], a = 0, b = 1. -/
theorem mux_single_active_witness :
    (0 : Nat) ≠ 1 ∧ (1 : Nat) ≤ 7 ∧
    ((¬ (chipActive (muxRunOps mux_init_state []) 0 ∧
         chipActive (muxRunOps mux_init_state []) 1)) ∧
     chipActive (muxRunOps mux_init_state ([] ++ [MuxOp.select 0, MuxOp.select 1])) 1 ∧
     (¬ chipActive (muxRunOps mux_init_state ([] ++ [MuxOp.select 0, MuxOp.select 1])) 0) ∧
     (¬ (cppChipActive (muxCppRunOps MuxControl.beginState []) 0 ∧
         cppChipActive (muxCppRunOps MuxControl.beginState []) 1))) :=
  ⟨by decide, by decide, mux_single_active [] 0 1 (by decide) (by decide)⟩

/-- C8: in the ESP-IDF implementation, current() tracks selection exactly
(mux_get_current_chip returns c after mux_select_chip(c) and
PCAP_CHIP_NONE after deselect), but the Arduino implementation violates
the claim: MuxControl::selectChip never assigns current_chip, so after
begin() followed by selectChip(PCAP_CHIP_1) the query getCurrentChip()
still returns PCAP_CHIP_NONE rather than PCAP_CHIP_1, contradicting the
accessor's own documentation. -/
theorem mux_current_chip_bug :
    (∀ (s : MuxState) (c : Nat),
      mux_get_current_chip (mux_select_chip s c) = c) ∧
    (∀ s : MuxState,
      mux_get_current_chip (mux_select_chip s PCAP_CHIP_NONE) = PCAP_CHIP_NONE) ∧
    MuxControl.getCurrentChip
      (MuxControl.selectChip MuxControl.beginState PCAP_CHIP_1) = PCAP_CHIP_NONE ∧
    PCAP_CHIP_NONE ≠ PCAP_CHIP_1 :=
  ⟨fun _ _ => rfl, fun _ => rfl, rfl, by decide⟩

/-- C2 counterexample: the claim says the self-test classifies the response
byte five ways (0x88 a byte-order swap fault, distinct from an unknown
fault such as 0x42), but the code returns an undifferentiated boolean:
its output on response 0x88 equals its output on 0x42, even though the
claimed classification separates them. -/
theorem selftest_not_five_way :
    (pcap_test_communication ⟨0x88⟩).2 = (pcap_test_communication ⟨0x42⟩).2 ∧
    selfTestClassifySpec 0x88 ≠ selfTestClassifySpec 0x42 := by
  decide

/-- C2 amended: the self-test sends the test-read command 0x7E followed by
one 0x00 filler byte, reads one response byte, and returns a plain
boolean: pass exactly when the byte is 0x11; every other value (0x88,
0xEE, 0x77 included) is reported as the same undifferentiated failure. -/
theorem selftest_boolean (env : SelfTestEnv) :
    (pcap_test_communication env).1 = [0x7E, 0x00] ∧
    ((pcap_test_communication env).2 = true ↔ env.response = 0x11) := by
  refine ⟨rfl, ?_⟩
  simp [pcap_test_communication]

/-- C3 counterexample: when the chip clocks out the response bytes
1, 0, 0, 0 (first byte 1), the code recomposes them to the value 1 —
the first response byte lands in the least significant position — while
the claimed big-endian recomposition (first byte most significant) would
give 16777216. -/
theorem read_sensor_not_big_endian :
    pcap_read_sensor_value (fun j => if j = 0 then 1 else 0) = 1 ∧
    specBigEndianValue (fun j => if j = 0 then 1 else 0) = 16777216 ∧
    (1 : Nat) ≠ 16777216 := by
  refine ⟨rfl, by decide, by decide⟩

/-- C3 amended: for every sensorIndex 0..5 the result read sends the
result-read command 0x40 bitwise-ORed with the per-sensor address
sensorIndex * 4, then recomposes the four response bytes little-endian:
the first response byte received becomes the least significant byte of
the returned unsigned value. -/
theorem read_sensor_cmd_and_value (i : Fin 6) (b : Fin 4 → Nat)
    (hb : ∀ j, b j < 256) :
    pcap_read_sensor_cmd i = 0x40 ||| (4 * i.val) ∧
    pcap_read_sensor_value b =
      b 0 + 256 * b 1 + 65536 * b 2 + 16777216 * b 3 := by
  constructor
  · fin_cases i <;> rfl
  · exact pcap_read_sensor_value_eq b hb

/-- Witness for C3 amended at i = 2 and response bytes 4, 3, 2, 1. -/
theorem read_sensor_cmd_and_value_witness :
    (∀ j, (fun j : Fin 4 => 4 - j.val) j < 256) ∧
    (pcap_read_sensor_cmd 2 = 0x40 ||| (4 * (2 : Fin 6).val) ∧
     pcap_read_sensor_value (fun j : Fin 4 => 4 - j.val) =
       (4 - (0 : Fin 4).val) + 256 * (4 - (1 : Fin 4).val) +
       65536 * (4 - (2 : Fin 4).val) + 16777216 * (4 - (3 : Fin 4).val)) :=
  ⟨by decide, read_sensor_cmd_and_value 2 (fun j => 4 - j.val) (by decide)⟩

/-- C4: the frame built for a chip is exactly 25 bytes, byte 0 is the chip
id, bytes 1..24 are the six values truncated to 32-bit two's complement
and written most significant byte first, and decoding the frame recovers
the chip id and, for values within the int32 range, the values
themselves. -/
theorem packFrame_roundtrip (c : Nat) (hc : c < 256) (v : Fin 6 → Int)
    (hv : ∀ i, -2147483648 ≤ v i ∧ v i < 2147483648) :
    (packFrame c v).length = 25 ∧
    decodeFrameChip (packFrame c v) = some c ∧
    ∀ i, decodeFrameValue (packFrame c v) i = some (v i) := by
  have key : ∀ w : Int, -2147483648 ≤ w → w < 2147483648 →
      int32OfBits (beNat4 ((int32OfInt w >>> 24) &&& 0xFF)
        ((int32OfInt w >>> 16) &&& 0xFF) ((int32OfInt w >>> 8) &&& 0xFF)
        (int32OfInt w &&& 0xFF)) = w := by
    intro w h1 h2
    rw [beNat4_int32BEBytes _ (int32OfInt_lt w)]
    exact int32OfBits_int32OfInt w h1 h2
  refine ⟨rfl, rfl, ?_⟩
  intro i
  fin_cases i
  · exact congrArg some (key (v 0) (hv 0).1 (hv 0).2)
  · exact congrArg some (key (v 1) (hv 1).1 (hv 1).2)
  · exact congrArg some (key (v 2) (hv 2).1 (hv 2).2)
  · exact congrArg some (key (v 3) (hv 3).1 (hv 3).2)
  · exact congrArg some (key (v 4) (hv 4).1 (hv 4).2)
  · exact congrArg some (key (v 5) (hv 5).1 (hv 5).2)

/-- Witness for C4 at chip id 2 and values i - 3 (which include negative
values, exercising the two's-complement encoding). -/
theorem packFrame_roundtrip_witness :
    (2 : Nat) < 256 ∧
    (∀ i : Fin 6, -2147483648 ≤ (i.val : Int) - 3 ∧ (i.val : Int) - 3 < 2147483648) ∧
    ((packFrame 2 (fun i => (i.val : Int) - 3)).length = 25 ∧
     decodeFrameChip (packFrame 2 (fun i => (i.val : Int) - 3)) = some 2 ∧
     ∀ i, decodeFrameValue (packFrame 2 (fun i => (i.val : Int) - 3)) i =
       some ((i.val : Int) - 3)) :=
  ⟨by decide, by decide, packFrame_roundtrip 2 (by decide) _ (by decide)⟩

/-- C5: calibration issues exactly one full 6-channel reading (the six
result-read commands, once each, no averaging), stores each raw value of
that single reading as the channel's offset, and applying the calibration
to the captured values yields exactly 0 on all six channels. -/
theorem calibrate_single_sample_zero (env : BusEnv) (d : pcap_data)
    (h24 : ∀ i, pcap_read_sensor_value (env.resp i) < 16777216) :
    (pcap_calibrate env (some d)).2 = pcap_read_data_cmds ∧
    (pcap_calibrate env (some d)).2.length = 6 ∧
    ∃ d2, (pcap_calibrate env (some d)).1 = some d2 ∧
      (∀ i, d2.raw i = pcap_read_sensor_value (env.resp i)) ∧
      (∀ i, d2.offset i = (d2.raw i : Int)) ∧
      (∀ i, applyCalibration (d2.raw i) (d2.offset i) = 0) := by
  refine ⟨rfl, ?_, _, rfl, fun i => rfl, fun i => rfl, fun i => ?_⟩
  · show pcap_read_data_cmds.length = 6
    simp [pcap_read_data_cmds]
  · simp [applyCalibration]

/-- Witness for C5 with all-zero response bytes on the bus. -/
theorem calibrate_single_sample_zero_witness :
    (∀ i : Fin 6,
      pcap_read_sensor_value ((BusEnv.mk fun _ _ => 0).resp i) < 16777216) ∧
    ((pcap_calibrate (BusEnv.mk fun _ _ => 0)
        (some (pcap_data.mk (fun _ => 0) (fun _ => 0)))).2 = pcap_read_data_cmds ∧
     (pcap_calibrate (BusEnv.mk fun _ _ => 0)
        (some (pcap_data.mk (fun _ => 0) (fun _ => 0)))).2.length = 6 ∧
     ∃ d2, (pcap_calibrate (BusEnv.mk fun _ _ => 0)
        (some (pcap_data.mk (fun _ => 0) (fun _ => 0)))).1 = some d2 ∧
       (∀ i, d2.raw i =
         pcap_read_sensor_value ((BusEnv.mk fun _ _ => 0).resp i)) ∧
       (∀ i, d2.offset i = (d2.raw i : Int)) ∧
       (∀ i, applyCalibration (d2.raw i) (d2.offset i) = 0)) :=
  ⟨by decide, calibrate_single_sample_zero (BusEnv.mk fun _ _ => 0)
    (pcap_data.mk (fun _ => 0) (fun _ => 0)) (by decide)⟩

/-- C6: when the compensation model is unavailable (nn_ready false, or the
interpreter or its tensors missing) or its invocation fails, nn_compensate
returns its input vector unchanged — the silent identity fallback, with no
error surfaced to the caller. -/
theorem nn_compensate_fallback {α : Type} (env : NNEnv α) (v : Fin 6 → α)
    (h : env.nn_ready = false ∨ env.interpreter_ok = false ∨
         env.invokeResult v = none) :
    nn_compensate env v = v := by
  unfold nn_compensate
  rcases h with h | h | h
  · simp [h]
  · rcases hr : env.nn_ready <;> simp [h, hr]
  · rcases hr : env.nn_ready <;> rcases hi : env.interpreter_ok <;>
      simp [h, hr, hi]

/-- Witness for C6 with the model not ready. -/
theorem nn_compensate_fallback_witness :
    ((NNEnv.mk false true fun _ => none : NNEnv Nat).nn_ready = false ∨
     (NNEnv.mk false true fun _ => none : NNEnv Nat).interpreter_ok = false ∨
     (NNEnv.mk false true fun _ => none : NNEnv Nat).invokeResult
       (fun _ => 0) = none) ∧
    nn_compensate (NNEnv.mk false true fun _ => none) (fun _ => (0 : Nat)) =
      (fun _ => (0 : Nat)) :=
  ⟨Or.inl rfl,
   nn_compensate_fallback (NNEnv.mk false true fun _ => none)
     (fun _ => (0 : Nat)) (Or.inl rfl)⟩

/-- C7: the frame push takes the transport mutex with a bounded wait of
10 ms; when the wait times out or no client is connected
(sink unavailable), ble_send_chip_data sends nothing and returns the BLE
state — including the stored outgoing frame buffer sensor_data_val —
completely unchanged: the frame is dropped, not retried. -/
theorem ble_push_drops_frame (lock : LockOutcome) (st : BleState)
    (chip_num : Nat) (d : pcap_data)
    (h : lock = LockOutcome.timedOut ∨ st.device_connected = false ∨
         st.conn_handle_valid = false) :
    bleLockWaitMs ≤ 10 ∧
    ble_send_chip_data lock st chip_num d = (st, none) := by
  refine ⟨le_refl 10, ?_⟩
  rcases h with h | h | h
  · subst h; rfl
  · cases lock
    · simp [ble_send_chip_data, h]
    · rfl
  · cases lock
    · simp [ble_send_chip_data, h]
    · rfl

/-- Witness for C7 with a lock timeout against a connected client. -/
theorem ble_push_drops_frame_witness :
    (LockOutcome.timedOut = LockOutcome.timedOut ∨
     (BleState.mk true true []).device_connected = false ∨
     (BleState.mk true true []).conn_handle_valid = false) ∧
    (bleLockWaitMs ≤ 10 ∧
     ble_send_chip_data LockOutcome.timedOut (BleState.mk true true []) 0
       (pcap_data.mk (fun _ => 0) (fun _ => 0)) =
       (BleState.mk true true [], none)) :=
  ⟨Or.inl rfl,
   ble_push_drops_frame LockOutcome.timedOut (BleState.mk true true []) 0
     (pcap_data.mk (fun _ => 0) (fun _ => 0)) (Or.inl rfl)⟩

/-- C9: every notification emitted on the sensor-data characteristic is
either the 25-byte telemetry frame, whose first byte is the chip number
0..7, or the 2-byte battery packet, whose first byte is 0xFF; the first
bytes never coincide, so a receiver distinguishes the two kinds
unambiguously. -/
theorem sensor_notifications_disjoint (lock lock2 : LockOutcome)
    (st st2 : BleState) (chip_num : Nat) (hc : chip_num ≤ 7) (d : pcap_data)
    (pct : Nat) (f g : List Nat)
    (hf : (ble_send_chip_data lock st chip_num d).2 = some f)
    (hg : (ble_send_battery lock2 st2 pct).2 = some g) :
    f.length = 25 ∧ f.head? = some chip_num ∧
    g.length = 2 ∧ g.head? = some 0xFF ∧ f.head? ≠ g.head? := by
  have hframe : f = packFrame chip_num (calibratedValue d) := by
    cases lock with
    | timedOut => exact absurd hf (by simp [ble_send_chip_data])
    | acquired =>
      simp only [ble_send_chip_data] at hf
      split_ifs at hf with hcond
      all_goals simp at hf
      all_goals exact hf.symm
  have hbat : g = [0xFF, pct] := by
    cases lock2 with
    | timedOut => exact absurd hg (by simp [ble_send_battery])
    | acquired =>
      simp only [ble_send_battery] at hg
      split_ifs at hg with hcond
      all_goals simp at hg
      all_goals exact hg.symm
  subst hframe
  subst hbat
  refine ⟨rfl, rfl, rfl, rfl, ?_⟩
  intro h
  simp only [packFrame, List.head?_cons, Option.some.injEq] at h
  omega

/-- Witness for C9: a telemetry frame for chip 2 and a battery packet,
both emitted while a client is connected. -/
theorem sensor_notifications_disjoint_witness :
    (2 : Nat) ≤ 7 ∧
    (ble_send_chip_data LockOutcome.acquired (BleState.mk true true []) 2
       (pcap_data.mk (fun _ => 0) (fun _ => 0))).2 =
      some (packFrame 2 (calibratedValue (pcap_data.mk (fun _ => 0) (fun _ => 0)))) ∧
    (ble_send_battery LockOutcome.acquired (BleState.mk true true []) 50).2 =
      some [0xFF, 50] ∧
    ((packFrame 2 (calibratedValue (pcap_data.mk (fun _ => 0) (fun _ => 0)))).length = 25 ∧
     (packFrame 2 (calibratedValue (pcap_data.mk (fun _ => 0) (fun _ => 0)))).head? = some 2 ∧
     ([0xFF, 50] : List Nat).length = 2 ∧
     ([0xFF, 50] : List Nat).head? = some 0xFF ∧
     (packFrame 2 (calibratedValue (pcap_data.mk (fun _ => 0) (fun _ => 0)))).head? ≠
       (([0xFF, 50] : List Nat)).head?) :=
  ⟨by decide, rfl, rfl,
   sensor_notifications_disjoint LockOutcome.acquired LockOutcome.acquired
     (BleState.mk true true []) (BleState.mk true true []) 2 (by decide)
     (pcap_data.mk (fun _ => 0) (fun _ => 0)) 50 _ _ rfl rfl⟩

/-- C10: calling pcap_calibrate with a NULL data pointer returns
immediately: no result-read command is issued on the bus and no stored
offsets or raw values are produced or modified. -/
theorem calibrate_null_noop (env : BusEnv) :
    pcap_calibrate env none = (none, []) := rfl

end PCAP
